import Mathlib

/-!
# Verification of the `caller` conversation state machine

A shallow embedding of the conversation state machine of the `caller`
repository, translated from `src/graph/graph.service.ts`,
`src/graph/types.ts` and `src/logger/logs.storage.ts`, together with
theorems settling the frozen claims about the natural-language
specification of that code.

Modelling conventions:

* TypeScript strings are Lean `String`s manipulated through their
  underlying `List Char`.
* JavaScript numbers are modelled as `JsNum`, an exact scaled-decimal
  representation (mantissa and power-of-ten denominator): every number
  this code produces is a decimal literal or such a literal times 1000 or
  1000000, all exactly representable.  `NaN` is modelled by `Option.none`
  at the points where the source checks `isNaN`.
* The regular expressions of the source are embedded as abstract syntax
  trees (`RE`) interpreted by a backtracking matcher (`reMatch`) that
  follows JavaScript semantics: leftmost match, prioritized alternation,
  greedy and lazy quantifiers, word boundaries, case-insensitive flag.
  The matcher recurses on an explicit fuel; the driver supplies fuel far
  larger than the recursion depth any of the embedded patterns can reach
  on a given input.
* The word-boundary keyword tests (`/\b(w1|w2|...)\b/i.test`) used by the
  yes/no, occupancy, lease-type, "not sure" and email-decline heuristics
  are embedded directly as `testWords`, a positional scan equivalent to
  the regex test for alternations of literal words that begin and end
  with word characters (as all of these do).
* The LLM paraphrasing calls (`formatQuestion` / `formatClarification`)
  are external collaborators; they are modelled as oracle functions
  `paraQ`, `paraC : String → String` supplied to `chat` (the source
  falls back to the identity behaviour when the LLM call fails).
* The file system is an association list from path to stored file.  The
  platform JSON codec (`JSON.stringify` / `JSON.parse`) is not code of
  this repository; it is abstracted at the tree level: a stored file is
  either a JSON tree or the marker `StoredFile.corrupt` standing for
  file text that `JSON.parse` rejects.  The repository's own
  contribution — which object is built on save, and how a loaded tree is
  used as a `GraphState` (the unchecked `as GraphState` cast, modelled
  as a total decoder with JavaScript-default values) — is embedded
  faithfully.
* Log files (`appendGraphLog`, `appendGraphSummary`) are write-only audit
  output never read back by the state machine; they are omitted from the
  world state.  The `logPath` field added on save (derived from the
  clock in `getOrCreateGraphLogPath`) is passed as an explicit argument.
-/

set_option maxHeartbeats 1000000

namespace Caller

/-! ## Basic character and string utilities (JavaScript semantics) -/

/-- JavaScript word character (regex `\w` and `\b`): `[A-Za-z0-9_]`. -/
def isWordChar (c : Char) : Bool :=
  c.isAlpha || c.isDigit || c = '_'

/-- JavaScript whitespace as used by `\s`, `trim` (ASCII part). -/
def isJsSpace (c : Char) : Bool :=
  c = ' ' || c = '\t' || c = '\n' || c = '\r' || c.toNat = 11 || c.toNat = 12

/-- Lower-casing a character (ASCII, as all the embedded patterns need). -/
def lc (c : Char) : Char := c.toLower

/-- `String.prototype.trim`. -/
def trimChars (l : List Char) : List Char :=
  ((l.dropWhile isJsSpace).reverse.dropWhile isJsSpace).reverse

/-- `String.prototype.trim` on `String`. -/
def trimStr (s : String) : String := String.mk (trimChars s.data)

/-- `String.prototype.toLowerCase`. -/
def lowerStr (s : String) : String := String.mk (s.data.map lc)

/-- Does `s` start with `w`, comparing case-insensitively (`w` lower-case)? -/
def startsWithCI (w s : List Char) : Bool :=
  match w, s with
  | [], _ => true
  | _ :: _, [] => false
  | a :: w', b :: s' => lc b = a && startsWithCI w' s'

/-- Does `s` start with `w`, comparing exactly? -/
def startsWithEx (w s : List Char) : Bool :=
  match w, s with
  | [], _ => true
  | _ :: _, [] => false
  | a :: w', b :: s' => b = a && startsWithEx w' s'

/-- `String.prototype.includes` (exact substring containment). -/
def containsSub (w s : List Char) : Bool :=
  startsWithEx w s ||
    match s with
    | [] => false
    | _ :: s' => containsSub w s'

/-- Remove the first occurrence of `w` from `s`
(`String.prototype.replace` with a string pattern and empty replacement). -/
def removeFirstSub (w s : List Char) : List Char :=
  if startsWithEx w s then s.drop w.length
  else
    match s with
    | [] => []
    | c :: s' => c :: removeFirstSub w s'

/-! ## Word-boundary keyword tests

`/\b(w1|w2|...)\b/i.test(s)` for alternations of literal words whose first
and last characters are word characters (true of every keyword list in the
source): the test succeeds iff some word occurs somewhere in `s`,
case-insensitively, with no word character immediately before or after it. -/

/-- One word matches at the current position with both boundaries. -/
def wordHereOK (w : List Char) (prev : Option Char) (s : List Char) : Bool :=
  (match prev with
   | none => true
   | some c => !isWordChar c) &&
  startsWithCI w s &&
  (match s.drop w.length with
   | [] => true
   | c :: _ => !isWordChar c)

/-- Scan all positions of `s` (with `prev` the character before the scan
position) for any of the words. -/
def testWordsAux (ws : List (List Char)) (prev : Option Char) (s : List Char) : Bool :=
  ws.any (fun w => wordHereOK w prev s) ||
    match s with
    | [] => false
    | c :: s' => testWordsAux ws (some c) s'

/-- `/\b(w1|...|wn)\b/i.test(s)` for a list of literal (lower-case) words. -/
def testWords (ws : List String) (s : String) : Bool :=
  testWordsAux (ws.map String.data) none s.data

/-! ## Numeric parsing (JavaScript `parseFloat` / `parseInt`)

JavaScript numbers produced by this code are decimal: a `JsNum` `⟨m, e⟩`
denotes `m / 10 ^ e`.  All operations the code performs (building a
number from decimal digits, multiplying by 1000 or 1000000) stay inside
this representation using only `Int`/`Nat` arithmetic, so that concrete
runs reduce inside the kernel. -/

/-- An exact JavaScript decimal: the value `m / 10 ^ e`. -/
structure JsNum where
  m : Int
  e : Nat
  deriving DecidableEq, Repr

/-- A whole number. -/
def JsNum.ofInt (n : Int) : JsNum := ⟨n, 0⟩

/-- The rational value denoted. -/
def JsNum.toRat (x : JsNum) : Rat := (x.m : Rat) / (10 : Rat) ^ x.e

/-- Multiplication by `10 ^ k` (the `* 1000` / `* 1000000` of
`parsePriceToNumber`), kept in least-exponent form. -/
def JsNum.mulPow10 (x : JsNum) (k : Nat) : JsNum :=
  if k ≤ x.e then ⟨x.m, x.e - k⟩ else ⟨x.m * ((10 : Nat) ^ (k - x.e) : Nat), 0⟩

/-- Numeric value of a list of decimal digits. -/
def natOfDigits (l : List Char) : Nat :=
  l.foldl (fun a c => a * 10 + (c.toNat - 48)) 0

/-- JavaScript `parseFloat`: skip leading whitespace, optional sign,
integer digits, optional `.` and fraction digits; `NaN` (modelled `none`)
when no digit is consumed.  (Exponent forms are not produced by any string
this code feeds to `parseFloat` and are not modelled.) -/
def parseFloatQ (s : String) : Option JsNum :=
  let t := s.data.dropWhile isJsSpace
  let sign : Int := match t with | '-' :: _ => -1 | _ => 1
  let t1 := match t with | '-' :: r => r | '+' :: r => r | _ => t
  let intD := t1.takeWhile Char.isDigit
  let r1 := t1.dropWhile Char.isDigit
  let fracD := match r1 with | '.' :: r2 => r2.takeWhile Char.isDigit | _ => []
  if intD = [] && fracD = [] then none
  else some ⟨sign * (natOfDigits intD * 10 ^ fracD.length + natOfDigits fracD : Nat), fracD.length⟩

/-- JavaScript `parseInt(s, 10)`: skip leading whitespace, optional sign,
leading decimal digits; `NaN` (modelled `none`) when no digit is consumed. -/
def parseIntQ (s : String) : Option JsNum :=
  let t := s.data.dropWhile isJsSpace
  let sign : Int := match t with | '-' :: _ => -1 | _ => 1
  let t1 := match t with | '-' :: r => r | '+' :: r => r | _ => t
  let intD := t1.takeWhile Char.isDigit
  if intD = [] then none
  else some ⟨sign * (natOfDigits intD : Nat), 0⟩

/-! ## A small backtracking regex engine (JavaScript semantics)

Only the constructs appearing in the source's patterns are supported:
character predicates, concatenation, prioritized alternation, greedy
star, word boundary, and numbered capturing groups.  Greedy/lazy
optionals and counted repetitions are desugared into these.  The matcher
is in continuation-passing style and consumes explicit fuel; `none` from
exhausted fuel never occurs at the fuel the driver supplies. -/

inductive RE where
  | eps
  | pred (p : Char → Bool)
  | cat (a b : RE)
  | alt (a b : RE)
  | star (r : RE)
  | wb
  | grp (i : Nat) (r : RE)

/-- Matcher state: the character preceding the current position (for `\b`),
the rest of the input, and the captures recorded so far. -/
structure MState where
  prev : Option Char
  rest : List Char
  caps : List (Nat × List Char)

/-- Is the current position a word boundary? -/
def atBoundary (prev : Option Char) (rest : List Char) : Bool :=
  let a := match prev with | some c => isWordChar c | none => false
  let b := match rest with | c :: _ => isWordChar c | [] => false
  a != b

/-- Backtracking matcher.  Priority follows JavaScript: `alt` tries the
left alternative first; `star` is greedy (tries one more iteration before
stopping, requiring progress as JavaScript repetition does). -/
def reMatch : Nat → RE → MState → (MState → Option MState) → Option MState
  | 0, _, _, _ => none
  | fuel + 1, re, st, k =>
    match re with
    | .eps => k st
    | .pred p =>
      match st.rest with
      | c :: rest' => if p c then k { prev := some c, rest := rest', caps := st.caps } else none
      | [] => none
    | .cat a b => reMatch fuel a st (fun st' => reMatch fuel b st' k)
    | .alt a b =>
      match reMatch fuel a st k with
      | some r => some r
      | none => reMatch fuel b st k
    | .star r =>
      match reMatch fuel r st (fun st' =>
        if st'.rest.length < st.rest.length then reMatch fuel (.star r) st' k else none) with
      | some res => some res
      | none => k st
    | .wb => if atBoundary st.prev st.rest then k st else none
    | .grp i r =>
      reMatch fuel r st (fun st' =>
        k { st' with caps := (i, st.rest.take (st.rest.length - st'.rest.length)) :: st'.caps })

/-- Try a match at each start position, left to right (JavaScript
`String.prototype.match` without the `g` flag): returns the matched text
and the captures of the first (leftmost) match. -/
def reFirstMatchAux (fuel : Nat) (re : RE) :
    Option Char → List Char → Option (List Char × List (Nat × List Char))
  | prev, s =>
    match reMatch fuel re ⟨prev, s, []⟩ some with
    | some st' => some (s.take (s.length - st'.rest.length), st'.caps)
    | none =>
      match s with
      | [] => none
      | c :: s' => reFirstMatchAux fuel re (some c) s'

/-- Fuel bound: the matcher's recursion depth is at most about
(pattern size) × (input length), far below this. -/
def reFuel (s : String) : Nat := (s.length + 1) * 400

/-- `s.match(re)`: matched text (`match[0]`) and captures. -/
def reFirstMatch (re : RE) (s : String) : Option (String × List (Nat × List Char)) :=
  (reFirstMatchAux (reFuel s) re none s.data).map (fun p => (String.mk p.1, p.2))

/-- Capture group lookup (`match[i]`); groups in these patterns always
participate when the pattern matches. -/
def capOf (caps : List (Nat × List Char)) (i : Nat) : Option String :=
  match caps with
  | [] => none
  | (j, c) :: rest => if j = i then some (String.mk c) else capOf rest i

/-! ### Pattern building blocks -/

/-- Single character, optionally case-insensitive. -/
def chRE (ci : Bool) (c : Char) : RE :=
  .pred (fun d => if ci then lc d = lc c else d = c)

/-- Literal string. -/
def litRE (ci : Bool) (w : String) : RE :=
  w.data.foldr (fun c acc => RE.cat (chRE ci c) acc) RE.eps

/-- Greedy `r?`. -/
def optRE (r : RE) : RE := .alt r .eps

/-- Lazy `r??`. -/
def lazyOptRE (r : RE) : RE := .alt .eps r

/-- `r+`. -/
def plusRE (r : RE) : RE := .cat r (.star r)

/-- `\d`. -/
def digitRE : RE := .pred Char.isDigit

/-- `\s`. -/
def wsRE : RE := .pred isJsSpace

/-- `\s*`. -/
def wsStar : RE := .star wsRE

/-- Prioritized alternation of a list (first alternative first). -/
def altList : List RE → RE
  | [] => .eps
  | [r] => r
  | r :: rs => .alt r (altList rs)

/-- `\d{1,3}` (greedy: three digits first). -/
def d13 : RE := .cat digitRE (optRE (.cat digitRE (optRE digitRE)))

/-- `\d{1,2}` (greedy). -/
def d12 : RE := .cat digitRE (optRE digitRE)

/-- `\d{1,2}?` (lazy). -/
def d12lazy : RE := .cat digitRE (lazyOptRE digitRE)

/-- `\d{2,4}?` (lazy). -/
def d24lazy : RE := .cat digitRE (.cat digitRE (lazyOptRE (.cat digitRE (lazyOptRE digitRE))))

/-- `\d{2,4}` (greedy). -/
def d24 : RE := .cat digitRE (.cat digitRE (optRE (.cat digitRE (optRE digitRE))))

/-- `\d+`. -/
def dPlus : RE := plusRE digitRE

/-- `\d+(?:\.\d+)?`. -/
def numToken : RE := .cat dPlus (optRE (.cat (chRE false '.') dPlus))

/-- `\d{1,3}(?:,\d{3})*(?:\.\d+)?` — the number shape of the price patterns. -/
def priceNum : RE :=
  .cat d13 (.cat (.star (.cat (chRE false ',') (.cat digitRE (.cat digitRE digitRE))))
    (optRE (.cat (chRE false '.') dPlus)))

/-! ## Conversation graph data model — from `src/graph/types.ts` -/

inductive ConversationNode where
  | start
  | initial_interest
  | other_property
  | price_range
  | bedrooms_bathrooms
  | kitchen_updates
  | property_condition
  | occupancy
  | lease_type
  | lease_expiry
  | selling_reason
  | collect_email
  | closing
  | «end»
  deriving DecidableEq, Repr

/-- The string literal of each node (the keys of the `ConversationNode`
union type and of the `QUESTIONS` record). -/
def nodeName : ConversationNode → String
  | .start => "start"
  | .initial_interest => "initial_interest"
  | .other_property => "other_property"
  | .price_range => "price_range"
  | .bedrooms_bathrooms => "bedrooms_bathrooms"
  | .kitchen_updates => "kitchen_updates"
  | .property_condition => "property_condition"
  | .occupancy => "occupancy"
  | .lease_type => "lease_type"
  | .lease_expiry => "lease_expiry"
  | .selling_reason => "selling_reason"
  | .collect_email => "collect_email"
  | .closing => "closing"
  | .«end» => "end"

/-- Inverse of `nodeName` on node names. -/
def nodeOfString (s : String) : Option ConversationNode :=
  if s = "start" then some .start
  else if s = "initial_interest" then some .initial_interest
  else if s = "other_property" then some .other_property
  else if s = "price_range" then some .price_range
  else if s = "bedrooms_bathrooms" then some .bedrooms_bathrooms
  else if s = "kitchen_updates" then some .kitchen_updates
  else if s = "property_condition" then some .property_condition
  else if s = "occupancy" then some .occupancy
  else if s = "lease_type" then some .lease_type
  else if s = "lease_expiry" then some .lease_expiry
  else if s = "selling_reason" then some .selling_reason
  else if s = "collect_email" then some .collect_email
  else if s = "closing" then some .closing
  else if s = "end" then some .«end»
  else none

/-- `QUESTIONS` — the fixed question text of each node. -/
def QUESTIONS : ConversationNode → String
  | .start => ""
  | .initial_interest =>
    "Hi, I'm calling you about the property, just wanted to ask if you've ever considered or had any intention of selling before?"
  | .other_property =>
    "Alright, do you happen to have any other property you would like to sell?"
  | .price_range =>
    "Great! May I ask you a few questions about the condition? Let me start by asking you if you have a price range in mind?"
  | .bedrooms_bathrooms => "How many bedrooms and bathrooms?"
  | .kitchen_updates =>
    "Have you made any updates to the kitchen or bathrooms within the past 5 years?"
  | .property_condition =>
    "On a scale of 1 to 10, how would you rate the condition of your property?"
  | .occupancy => "Is the property occupied by you or tenants (renters)?"
  | .lease_type => "May I ask, are they on a monthly lease or an annual lease?"
  | .lease_expiry => "When will the lease expire?"
  | .selling_reason => "What is the main reason for selling this property?"
  | .collect_email => "What's the best email address to send you more information?"
  | .closing =>
    "I'd like to thank you for your time and the info. The next step is that one of our acquisition team will call you back to discuss the next step and follow up with you regarding our call within the next two business days. Can we reach you again on this number?"
  | .«end» => ""

/-- `interface PriceExtractionResult` (`min`/`max` are `number | null`). -/
structure PriceExtractionResult where
  raw : String
  min : Option JsNum
  max : Option JsNum
  currency : String
  deriving DecidableEq, Repr

/-- `interface BedroomsBathroomsResult`. -/
structure BedroomsBathroomsResult where
  bedrooms : Option JsNum
  bathrooms : Option JsNum
  raw : String
  deriving DecidableEq, Repr

/-- The values stored in `extractedAnswers` / returned in
`ValidationResult.extractedValue` (`any` in the source): plain strings,
numbers, price results (with the optional `status: 'not_sure'` field),
bedrooms/bathrooms results, and the `{unclear: true, clarification}`
marker object. -/
inductive ExtractedValue where
  | unclear (clarification : String)
  | str (s : String)
  | num (q : JsNum)
  | price (p : PriceExtractionResult) (status : Option String)
  | rooms (r : BedroomsBathroomsResult)
  deriving DecidableEq, Repr

/-- Is this the `{unclear: true, ...}` marker object
(the test `extractedValue && typeof extractedValue === 'object' && extractedValue.unclear`)? -/
def ExtractedValue.isUnclear : ExtractedValue → Bool
  | .unclear _ => true
  | _ => false

/-- The `clarification` field of an unclear marker (empty otherwise). -/
def ExtractedValue.clarificationOf : ExtractedValue → String
  | .unclear c => c
  | _ => ""

/-- `interface ValidationResult`: the source always pairs
`isValid: true` with an extracted value and `isValid: false` with a
`clarificationNeeded` text, the two shapes embedded as constructors. -/
inductive ValidationResult where
  | ok (v : ExtractedValue)
  | needs (clarification : String)
  deriving DecidableEq, Repr

inductive Role where
  | ai
  | human
  deriving DecidableEq, Repr

structure Message where
  role : Role
  content : String
  deriving DecidableEq, Repr

/-- `interface GraphState` (`answers` / `extractedAnswers` are records
keyed by node name, embedded as association lists in insertion order). -/
structure GraphState where
  username : String
  currentNode : ConversationNode
  messages : List Message
  answers : List (ConversationNode × String)
  extractedAnswers : List (ConversationNode × ExtractedValue)
  interestedInSelling : Option Bool
  hasOtherProperty : Option Bool
  isTenantOccupied : Option Bool
  isAnnualLease : Option Bool
  email : Option String
  isComplete : Bool
  lastQuestion : String
  lastResponse : String
  deriving DecidableEq, Repr

/-! ## The transition function — `determineNextNode` -/

/-- `GraphService.determineNextNode` (lines 790–824 of
`graph.service.ts`), translated clause for clause. -/
def determineNextNode (currentNode : ConversationNode) (result : GraphState) : ConversationNode :=
  match currentNode with
  | .initial_interest =>
    if result.interestedInSelling = some true then .price_range
    else if result.interestedInSelling = some false then .other_property
    else .initial_interest
  | .other_property =>
    if result.hasOtherProperty = some true then .price_range
    else .closing
  | .price_range => .bedrooms_bathrooms
  | .bedrooms_bathrooms => .kitchen_updates
  | .kitchen_updates => .property_condition
  | .property_condition => .occupancy
  | .occupancy =>
    if result.isTenantOccupied = some true then .lease_type
    else .selling_reason
  | .lease_type =>
    if result.isAnnualLease = some true then .lease_expiry
    else .selling_reason
  | .lease_expiry => .selling_reason
  | .selling_reason => .collect_email
  | .collect_email => .closing
  | .closing => .«end»
  | _ => .«end»

/-! ## Validation heuristics — `GraphService.validate*`

Each `validate*` method of `graph.service.ts` is translated below; the
keyword lists, regex patterns and clarification texts are taken verbatim
from the source. -/

/-- The positive keywords of `validateYesNo`. -/
def yesWords : List String :=
  ["yes", "yeah", "sure", "definitely", "absolutely", "yep", "yup",
   "correct", "right", "true", "i do", "i am", "i have"]

/-- The negative keywords of `validateYesNo`. -/
def noWords : List String :=
  ["no", "nope", "not really", "never", "nah", "negative",
   "i don't", "i haven't", "not yet"]

/-- `GraphService.validateYesNo` (lines 231-244). -/
def validateYesNo (response : String) : ValidationResult :=
  let userMessage := trimStr (lowerStr response)
  if testWords yesWords userMessage then .ok (.str "yes")
  else if testWords noWords userMessage then .ok (.str "no")
  else .needs "I didn't quite catch that. Could you please answer with yes or no?"

/-! ### Price parsing -/

/-- Does the list end with the given character? -/
def lastIs (c : Char) (l : List Char) : Bool :=
  match l.getLast? with
  | some d => d = c
  | none => false

/-- `GraphService.parsePriceToNumber` (lines 246-274): strip `$`, commas
and whitespace, lower-case, then interpret `k` / `m` / `million` /
`thousand` suffixes (`String.replace` with a string pattern replaces only
the first occurrence). -/
def parsePriceToNumber (priceStr : String) : Option JsNum :=
  if priceStr = "" then none
  else
    let cleaned := (priceStr.data.filter (fun c => !(c = '$' || c = ',' || isJsSpace c))).map lc
    if lastIs 'k' cleaned then
      match parseFloatQ (String.mk cleaned.dropLast) with
      | none => none
      | some n => some (n.mulPow10 3)
    else if lastIs 'm' cleaned || containsSub "million".data cleaned then
      let c2 := removeFirstSub "m".data (removeFirstSub "million".data cleaned)
      match parseFloatQ (String.mk c2) with
      | none => none
      | some n => some (n.mulPow10 6)
    else if containsSub "thousand".data cleaned then
      let c2 := removeFirstSub "thousand".data cleaned
      match parseFloatQ (String.mk c2) with
      | none => none
      | some n => some (n.mulPow10 3)
    else parseFloatQ (String.mk cleaned)

/-- `(?:k|K|thousand|m|M|million)?`. -/
def suffixKM (ci : Bool) : RE :=
  optRE (altList [litRE ci "k", litRE ci "K", litRE ci "thousand",
    litRE ci "m", litRE ci "M", litRE ci "million"])

/-- First range pattern of `extractPriceRange`:
`\$?\s*(num)\s*(?:k|K|thousand|m|M|million)?\s*(?:-|to|and)\s*\$?\s*(num)\s*(?:k|K|thousand|m|M|million)?`
with the `i` flag. -/
def rangePattern0 : RE :=
  .cat (optRE (chRE true '$')) (.cat wsStar (.cat (.grp 1 priceNum)
    (.cat wsStar (.cat (suffixKM true) (.cat wsStar
      (.cat (altList [chRE true '-', litRE true "to", litRE true "and"])
        (.cat wsStar (.cat (optRE (chRE true '$')) (.cat wsStar
          (.cat (.grp 2 priceNum) (.cat wsStar (suffixKM true))))))))))))

/-- Second range pattern of `extractPriceRange`:
`between\s*\$?\s*(num)\s*(?:...)?\s*(?:and|to)\s*\$?\s*(num)\s*(?:...)?` with `i`. -/
def rangePattern1 : RE :=
  .cat (litRE true "between") (.cat wsStar (.cat (optRE (chRE true '$'))
    (.cat wsStar (.cat (.grp 1 priceNum) (.cat wsStar (.cat (suffixKM true)
      (.cat wsStar (.cat (altList [litRE true "and", litRE true "to"])
        (.cat wsStar (.cat (optRE (chRE true '$')) (.cat wsStar
          (.cat (.grp 2 priceNum) (.cat wsStar (suffixKM true))))))))))))))

/-- `\d{1,3}(?:,\d{3})*` (no decimal part). -/
def commaNum : RE :=
  .cat d13 (.star (.cat (chRE false ',') (.cat digitRE (.cat digitRE digitRE))))

/-- The four single-price patterns of `extractPriceRange`, in source order. -/
def singlePatterns : List RE :=
  [ .cat (optRE (chRE false '$')) (.cat wsStar (.cat (.grp 1 priceNum)
      (.cat wsStar (optRE (altList [litRE false "k", litRE false "K", litRE false "thousand"]))))),
    .cat (optRE (chRE false '$')) (.cat wsStar (.cat (.grp 1 dPlus)
      (.cat wsStar (altList [litRE false "k", litRE false "K", litRE false "thousand"])))),
    .cat (.grp 1 commaNum) (.cat wsStar
      (optRE (.cat (litRE false "dollar") (optRE (chRE false 's'))))),
    .cat (altList [litRE true "around", litRE true "about", litRE true "approximately", litRE true "roughly"])
      (.cat wsStar (.cat (optRE (chRE true '$')) (.cat wsStar (.cat (.grp 1 dPlus)
        (.cat wsStar (suffixKM true)))))) ]

/-- `fullMatch.search(/(-|to|and)/i)`: index of the first separator. -/
def searchSep : List Char → Option Nat
  | [] => none
  | c :: s' =>
    if c = '-' || startsWithCI "to".data (c :: s') || startsWithCI "and".data (c :: s') then some 0
    else (searchSep s').map (· + 1)

/-- Try the patterns in order and return the first `match[0]`. -/
def firstMatchLoop (ps : List RE) (response : String) : Option String :=
  match ps with
  | [] => none
  | p :: rest =>
    match reFirstMatch p response with
    | some m => some m.1
    | none => firstMatchLoop rest response

/-- The single-price loop of `extractPriceRange`: first pattern whose
`match[0]` parses to a number sets `min = max = price`. -/
def singleLoop (ps : List RE) (response : String) (base : PriceExtractionResult) :
    PriceExtractionResult :=
  match ps with
  | [] => base
  | p :: rest =>
    match reFirstMatch p response with
    | some m =>
      match parsePriceToNumber m.1 with
      | some price => { base with min := some price, max := some price }
      | none => singleLoop rest response base
    | none => singleLoop rest response base

/-- `GraphService.extractPriceRange` (lines 276-325).  A range match is
split at the index of the first separator (`-`/`to`/`and`) of the matched
text; the two substrings go through `parsePriceToNumber`. -/
def extractPriceRange (response : String) : PriceExtractionResult :=
  let base : PriceExtractionResult := { raw := response, min := none, max := none, currency := "USD" }
  match firstMatchLoop [rangePattern0, rangePattern1] response with
  | some fullMatch =>
    (match searchSep fullMatch.data with
     | some idx =>
       { base with min := parsePriceToNumber (String.mk (fullMatch.data.take idx)),
                   max := parsePriceToNumber (String.mk (fullMatch.data.drop idx)) }
     | none =>
       -- `search` returned -1: `substring(0,-1)` is "" and `substring(-1)` the whole match
       { base with min := parsePriceToNumber "", max := parsePriceToNumber fullMatch })
  | none => singleLoop singlePatterns response base

/-- The "not sure" keywords of `validatePriceRange`. -/
def notSureWords : List String :=
  ["not sure", "don't know", "no idea", "unsure", "haven't decided"]

/-- `GraphService.validatePriceRange` (lines 327-356). -/
def validatePriceRange (response : String) : ValidationResult :=
  if testWords notSureWords response then
    .ok (.price { raw := response, min := none, max := none, currency := "USD" } (some "not_sure"))
  else
    let priceResult := extractPriceRange response
    if priceResult.min ≠ none || priceResult.max ≠ none then .ok (.price priceResult none)
    else .needs "Could you give me a rough price range you have in mind? For example, $200,000 or around $300k?"

/-! ### Bedrooms/bathrooms -/

/-- `(?:bed(?:room)?s?|br)` with `i`. -/
def bedUnit : RE :=
  altList [.cat (litRE true "bed") (.cat (optRE (litRE true "room")) (optRE (chRE true 's'))),
    litRE true "br"]

/-- `(?:bath(?:room)?s?|ba)` with `i`. -/
def bathUnit : RE :=
  altList [.cat (litRE true "bath") (.cat (optRE (litRE true "room")) (optRE (chRE true 's'))),
    litRE true "ba"]

/-- The three combined bed/bath patterns of `validateBedroomsBathrooms`,
in source order. -/
def bbPatterns : List RE :=
  [ .cat (.grp 1 dPlus) (.cat wsStar (.cat bedUnit (.cat wsStar
      (.cat (altList [litRE true "and", chRE true ',', chRE true '/', wsRE])
        (.cat wsStar (.cat (.grp 2 numToken) (.cat wsStar bathUnit))))))),
    .cat (.grp 1 dPlus) (.cat wsStar (.cat (chRE false '/') (.cat wsStar (.grp 2 numToken)))),
    .cat (.grp 1 dPlus) (.cat (plusRE wsRE) (.grp 2 numToken)) ]

/-- `/(\d+)\s*(?:bed(?:room)?s?|br)/i`. -/
def bedOnlyPattern : RE := .cat (.grp 1 dPlus) (.cat wsStar bedUnit)

/-- `/(\d+(?:\.\d+)?)\s*(?:bath(?:room)?s?|ba)/i`. -/
def bathOnlyPattern : RE := .cat (.grp 1 numToken) (.cat wsStar bathUnit)

/-- Combined-pattern loop: first pattern that matches yields its two
captures. -/
def bbLoop (ps : List RE) (response : String) : Option (String × String) :=
  match ps with
  | [] => none
  | p :: rest =>
    match reFirstMatch p response with
    | some m =>
      (match capOf m.2 1, capOf m.2 2 with
       | some c1, some c2 => some (c1, c2)
       | _, _ => none)
    | none => bbLoop rest response

/-- `response.match(/\d+(?:\.\d+)?/g)`: all number tokens, left to right,
non-overlapping (fuelled recursion, fuel consumed at least one character
per step). -/
def numTokensF : Nat → List Char → List (List Char)
  | 0, _ => []
  | _ + 1, [] => []
  | fuel + 1, c :: s' =>
    if c.isDigit then
      let intD := (c :: s').takeWhile Char.isDigit
      let r1 := (c :: s').dropWhile Char.isDigit
      match r1 with
      | '.' :: r2 =>
        let fr := r2.takeWhile Char.isDigit
        if fr = [] then intD :: numTokensF fuel r1
        else (intD ++ '.' :: fr) :: numTokensF fuel (r2.dropWhile Char.isDigit)
      | _ => intD :: numTokensF fuel r1
    else numTokensF fuel s'

/-- All `\d+(?:\.\d+)?` tokens of a string. -/
def numTokens (s : String) : List (List Char) := numTokensF s.data.length s.data

/-- `GraphService.validateBedroomsBathrooms` (lines 358-410). -/
def validateBedroomsBathrooms (response : String) : ValidationResult :=
  match bbLoop bbPatterns response with
  | some (c1, c2) =>
    .ok (.rooms { bedrooms := parseIntQ c1, bathrooms := parseFloatQ c2, raw := response })
  | none =>
    let bedrooms :=
      match reFirstMatch bedOnlyPattern response with
      | some m => (capOf m.2 1).bind parseIntQ
      | none => none
    let bathrooms :=
      match reFirstMatch bathOnlyPattern response with
      | some m => (capOf m.2 1).bind parseFloatQ
      | none => none
    if bedrooms ≠ none || bathrooms ≠ none then
      .ok (.rooms { bedrooms := bedrooms, bathrooms := bathrooms, raw := response })
    else
      match numTokens response with
      | a :: b :: _ =>
        .ok (.rooms
          { bedrooms := parseIntQ (String.mk a)
            bathrooms := parseFloatQ (String.mk b)
            raw := response })
      | _ =>
        .needs "Could you tell me how many bedrooms and bathrooms the property has? For example, '3 bedrooms and 2 bathrooms'."

/-! ### Condition scale -/

/-- Is `\b` satisfied before the scan position? -/
def boundaryPrevOK (prev : Option Char) : Bool :=
  match prev with
  | none => true
  | some c => !isWordChar c

/-- Is `\b` satisfied after the consumed text? -/
def boundaryNextOK (s : List Char) : Bool :=
  match s with
  | [] => true
  | c :: _ => !isWordChar c

/-- One position of `/\b([1-9]|10)\b/`: the `[1-9]` alternative is tried
first, then the literal `10`, each requiring the trailing boundary. -/
def scaleHere (prev : Option Char) (s : List Char) : Option Nat :=
  if boundaryPrevOK prev then
    match s with
    | [] => none
    | c :: rest =>
      if '1' ≤ c && c ≤ '9' && boundaryNextOK rest then some (c.toNat - 48)
      else if c = '1' then
        match rest with
        | '0' :: rest2 => if boundaryNextOK rest2 then some 10 else none
        | _ => none
      else none
  else none

/-- Leftmost match of `/\b([1-9]|10)\b/` (the capture, via `parseInt`):
try the current position, else advance one character. -/
def findScale : Option Char → List Char → Option Nat
  | prev, [] => scaleHere prev []
  | prev, c :: s' =>
    match scaleHere prev (c :: s') with
    | some n => some n
    | none => findScale (some c) s'

/-- The descriptive-word table of `validateScale`, in insertion order. -/
def conditionWords : List (String × Nat) :=
  [("excellent", 10), ("perfect", 10), ("great", 9), ("very good", 8),
   ("good", 7), ("decent", 6), ("okay", 5), ("ok", 5), ("fair", 5),
   ("average", 5), ("needs work", 4), ("poor", 3), ("bad", 2), ("terrible", 1)]

/-- `GraphService.validateScale` (lines 412-437). -/
def validateScale (response : String) : ValidationResult :=
  match findScale none response.data with
  | some n => .ok (.num (JsNum.ofInt n))
  | none =>
    match conditionWords.find? (fun p => containsSub p.1.data (lowerStr response).data) with
    | some p => .ok (.num (JsNum.ofInt p.2))
    | none => .needs "Could you rate the condition on a scale of 1 to 10, where 10 is excellent and 1 is poor?"

/-! ### Occupancy, lease type, date, email, selling reason -/

/-- Tenant keywords of `validateOccupancy`. -/
def tenantWords : List String := ["tenant", "renter", "rent", "leased", "renting"]

/-- Owner keywords of `validateOccupancy`. -/
def ownerWords : List String :=
  ["owner", "myself", "me", "i live", "we live", "occupied by me", "my home", "vacant", "empty"]

/-- `GraphService.validateOccupancy` (lines 439-454). -/
def validateOccupancy (response : String) : ValidationResult :=
  let lowerResponse := lowerStr response
  if testWords tenantWords lowerResponse then .ok (.str "tenant")
  else if testWords ownerWords lowerResponse then .ok (.str "owner")
  else .needs "Is the property currently occupied by you, or do you have tenants renting it?"

/-- Annual keywords of `validateLeaseType`. -/
def annualWords : List String := ["annual", "year", "yearly", "12 month", "one year"]

/-- Monthly keywords of `validateLeaseType`. -/
def monthlyWords : List String := ["month", "monthly", "month-to-month", "mtm"]

/-- `GraphService.validateLeaseType` (lines 456-471). -/
def validateLeaseType (response : String) : ValidationResult :=
  let lowerResponse := lowerStr response
  if testWords annualWords lowerResponse then .ok (.str "annual")
  else if testWords monthlyWords lowerResponse then .ok (.str "monthly")
  else .needs "Is it an annual lease or a month-to-month arrangement?"

/-- Month-name alternation of the second date pattern. -/
def monthNames : RE :=
  altList (["january", "february", "march", "april", "may", "june", "july",
    "august", "september", "october", "november", "december"].map (litRE true))

/-- The four date patterns of `validateDate`, in source order
(`\d{1,2}?` and `\d{2,4}?` are lazy quantifiers). -/
def datePatterns : List RE :=
  [ .cat .wb (.cat (.grp 1 (.cat d12 (.cat (chRE false '/') (.cat d12
      (.cat (chRE false '/') d24))))) .wb),
    .cat .wb (.cat (.grp 1 monthNames) (.cat wsStar (.cat d12lazy
      (.cat (optRE (chRE false ',')) (.cat wsStar (.cat d24lazy .wb)))))),
    .cat .wb (.cat (.grp 1 d12) (.cat wsStar (.cat (.grp 2 (altList
      [.cat (litRE true "month") (optRE (chRE true 's')),
       .cat (litRE true "week") (optRE (chRE true 's')),
       .cat (litRE true "day") (optRE (chRE true 's'))])) .wb))),
    .cat .wb (.cat (.grp 1 (altList [litRE true "next month", litRE true "next year",
      litRE true "end of year", litRE true "soon"])) .wb) ]

/-- `GraphService.validateDate` (lines 473-499). -/
def validateDate (response : String) : ValidationResult :=
  match firstMatchLoop datePatterns response with
  | some m0 => .ok (.str m0)
  | none =>
    if 2 < (trimStr response).data.length then .ok (.str response)
    else .needs "When does the current lease expire? You can give me a date or approximate timeframe."

/-- `[a-zA-Z0-9._%+-]+@[a-zA-Z0-9.-]+\.[a-zA-Z]{2,}`. -/
def emailPattern : RE :=
  .cat (plusRE (.pred (fun c => c.isAlpha || c.isDigit || c = '.' || c = '_' || c = '%' || c = '+' || c = '-')))
    (.cat (chRE false '@')
      (.cat (plusRE (.pred (fun c => c.isAlpha || c.isDigit || c = '.' || c = '-')))
        (.cat (chRE false '.')
          (.cat (.pred Char.isAlpha) (plusRE (.pred Char.isAlpha))))))

/-- Decline keywords of `validateEmail`. -/
def declineWords : List String := ["no", "none", "don't have", "prefer not", "skip"]

/-- `GraphService.validateEmail` (lines 501-517). -/
def validateEmail (response : String) : ValidationResult :=
  match reFirstMatch emailPattern response with
  | some m => .ok (.str m.1)
  | none =>
    if testWords declineWords (lowerStr response) then .ok (.str "declined")
    else .needs "Could you please provide a valid email address? For example, yourname@example.com"




/-! ## Processors — `GraphService.process*` and `processCurrentNode` -/

/-- The string payload of an extracted value (used where the source reads
a validator's string result, e.g. the collected email). -/
def ExtractedValue.asString : ExtractedValue → String
  | .str s => s
  | _ => ""

/-- The partial state update returned by a node processor
(`Partial<GraphStateType>`): absent fields are `none`. -/
structure ProcessorResult where
  interestedInSelling : Option Bool := none
  hasOtherProperty : Option Bool := none
  isTenantOccupied : Option Bool := none
  isAnnualLease : Option Bool := none
  email : Option String := none
  isComplete : Option Bool := none
  extractedValue : ExtractedValue
  deriving DecidableEq, Repr

/-- `processInitialInterest` (lines 130-139). -/
def processInitialInterest (state : GraphState) : ProcessorResult :=
  match validateYesNo state.lastResponse with
  | .ok v => { interestedInSelling := some (decide (v = ExtractedValue.str "yes")), extractedValue := v }
  | .needs c => { extractedValue := .unclear c }

/-- `processOtherProperty` (lines 141-150). -/
def processOtherProperty (state : GraphState) : ProcessorResult :=
  match validateYesNo state.lastResponse with
  | .ok v => { hasOtherProperty := some (decide (v = ExtractedValue.str "yes")), extractedValue := v }
  | .needs c => { extractedValue := .unclear c }

/-- `processPriceRange` (lines 152-158). -/
def processPriceRange (state : GraphState) : ProcessorResult :=
  match validatePriceRange state.lastResponse with
  | .ok v => { extractedValue := v }
  | .needs c => { extractedValue := .unclear c }

/-- `processBedroomsBathrooms` (lines 160-166). -/
def processBedroomsBathrooms (state : GraphState) : ProcessorResult :=
  match validateBedroomsBathrooms state.lastResponse with
  | .ok v => { extractedValue := v }
  | .needs c => { extractedValue := .unclear c }

/-- `processKitchenUpdates` (lines 168-174). -/
def processKitchenUpdates (state : GraphState) : ProcessorResult :=
  match validateYesNo state.lastResponse with
  | .ok v => { extractedValue := v }
  | .needs c => { extractedValue := .unclear c }

/-- `processPropertyCondition` (lines 176-182). -/
def processPropertyCondition (state : GraphState) : ProcessorResult :=
  match validateScale state.lastResponse with
  | .ok v => { extractedValue := v }
  | .needs c => { extractedValue := .unclear c }

/-- `processOccupancy` (lines 184-191). -/
def processOccupancy (state : GraphState) : ProcessorResult :=
  match validateOccupancy state.lastResponse with
  | .ok v => { isTenantOccupied := some (decide (v = ExtractedValue.str "tenant")), extractedValue := v }
  | .needs c => { extractedValue := .unclear c }

/-- `processLeaseType` (lines 193-200). -/
def processLeaseType (state : GraphState) : ProcessorResult :=
  match validateLeaseType state.lastResponse with
  | .ok v => { isAnnualLease := some (decide (v = ExtractedValue.str "annual")), extractedValue := v }
  | .needs c => { extractedValue := .unclear c }

/-- `processLeaseExpiry` (lines 202-208). -/
def processLeaseExpiry (state : GraphState) : ProcessorResult :=
  match validateDate state.lastResponse with
  | .ok v => { extractedValue := v }
  | .needs c => { extractedValue := .unclear c }

/-- `processSellingReason` (lines 210-216): any non-trivial response. -/
def processSellingReason (state : GraphState) : ProcessorResult :=
  if 2 < (trimStr state.lastResponse).data.length then
    { extractedValue := .str state.lastResponse }
  else
    { extractedValue := .unclear "Could you tell me more about why you're considering selling?" }

/-- `processEmail` (lines 218-224). -/
def processEmail (state : GraphState) : ProcessorResult :=
  match validateEmail state.lastResponse with
  | .ok v => { email := some v.asString, extractedValue := v }
  | .needs c => { extractedValue := .unclear c }

/-- `processClosing` (lines 226-228). -/
def processClosing (state : GraphState) : ProcessorResult :=
  { isComplete := some true, extractedValue := .str state.lastResponse }

/-- `GraphService.processCurrentNode` (lines 731-763). -/
def processCurrentNode (node : ConversationNode) (state : GraphState) : ProcessorResult :=
  match node with
  | .initial_interest => processInitialInterest state
  | .other_property => processOtherProperty state
  | .price_range => processPriceRange state
  | .bedrooms_bathrooms => processBedroomsBathrooms state
  | .kitchen_updates => processKitchenUpdates state
  | .property_condition => processPropertyCondition state
  | .occupancy => processOccupancy state
  | .lease_type => processLeaseType state
  | .lease_expiry => processLeaseExpiry state
  | .selling_reason => processSellingReason state
  | .collect_email => processEmail state
  | .closing => processClosing state
  | _ => { extractedValue := .str state.lastResponse }

/-! ## Association lists (JavaScript `Map` / record objects) -/

/-- Lookup in an association list (first match). -/
def lookupKey {κ α : Type} [DecidableEq κ] : List (κ × α) → κ → Option α
  | [], _ => none
  | (k', v') :: rest, k => if k' = k then some v' else lookupKey rest k

/-- `Map.set` / record field assignment: replace in place, append if new. -/
def setKey {κ α : Type} [DecidableEq κ] : List (κ × α) → κ → α → List (κ × α)
  | [], k, v => [(k, v)]
  | (k', v') :: rest, k, v =>
    if k' = k then (k, v) :: rest else (k', v') :: setKey rest k v

/-! ## JSON trees and the persisted state codec

`JSON.stringify` / `JSON.parse` are platform builtins, abstracted at the
tree level (see the header).  `encodeGraphState` is the object the source
builds in `saveGraphState` (the state's fields spread plus `logPath`);
`decodeGraphState` is the unchecked `JSON.parse(raw) as GraphState` cast,
a total reading with JavaScript-default values. -/

inductive Json where
  | null
  | bool (b : Bool)
  | num (q : JsNum)
  | str (s : String)
  | arr (xs : List Json)
  | obj (fields : List (String × Json))

/-- Object field lookup. -/
def Json.getField (j : Json) (k : String) : Option Json :=
  match j with
  | .obj fs => lookupKey fs k
  | _ => none

/-- Read a string field (empty when absent or of another type). -/
def getStrD (j : Json) (k : String) : String :=
  match j.getField k with
  | some (.str s) => s
  | _ => ""

/-- Read a `boolean | null` field. -/
def getOptBoolD (j : Json) (k : String) : Option Bool :=
  match j.getField k with
  | some (.bool b) => some b
  | _ => none

/-- Read a `string | null` field. -/
def getOptStrD (j : Json) (k : String) : Option String :=
  match j.getField k with
  | some (.str s) => some s
  | _ => none

/-- Read a `number | null` field. -/
def getOptNumD (j : Json) (k : String) : Option JsNum :=
  match j.getField k with
  | some (.num q) => some q
  | _ => none

/-- Read a boolean field (false when absent — JavaScript falsiness). -/
def getBoolD (j : Json) (k : String) : Bool :=
  match j.getField k with
  | some (.bool b) => b
  | _ => false

def encodeOptBool : Option Bool → Json
  | none => .null
  | some b => .bool b

def encodeOptStr : Option String → Json
  | none => .null
  | some s => .str s

def encodeOptNum : Option JsNum → Json
  | none => .null
  | some q => .num q

def roleName : Role → String
  | .ai => "ai"
  | .human => "human"

def encodeMsg (msg : Message) : Json :=
  .obj [("role", .str (roleName msg.role)), ("content", .str msg.content)]

def decodeMsg (j : Json) : Message :=
  { role := match j.getField "role" with
      | some (.str "human") => .human
      | _ => .ai
    content := getStrD j "content" }

def encodeExtracted : ExtractedValue → Json
  | .unclear c => .obj [("unclear", .bool true), ("clarification", .str c)]
  | .str s => .str s
  | .num q => .num q
  | .price p status =>
    .obj ([("raw", .str p.raw), ("min", encodeOptNum p.min), ("max", encodeOptNum p.max),
      ("currency", .str p.currency)] ++
      (match status with
       | some s => [("status", Json.str s)]
       | none => []))
  | .rooms r =>
    .obj [("bedrooms", encodeOptNum r.bedrooms), ("bathrooms", encodeOptNum r.bathrooms),
      ("raw", .str r.raw)]

def decodeExtracted (j : Json) : ExtractedValue :=
  match j with
  | .str s => .str s
  | .num q => .num q
  | .obj _ =>
    (match j.getField "unclear" with
     | some (.bool true) => .unclear (getStrD j "clarification")
     | _ =>
       match j.getField "currency" with
       | some (.str cur) =>
         .price
           { raw := getStrD j "raw"
             min := getOptNumD j "min"
             max := getOptNumD j "max"
             currency := cur }
           (getOptStrD j "status")
       | _ =>
         .rooms
           { bedrooms := getOptNumD j "bedrooms"
             bathrooms := getOptNumD j "bathrooms"
             raw := getStrD j "raw" })
  | _ => .str ""

def encodeGraphState (st : GraphState) (logPath : String) : Json :=
  .obj [("username", .str st.username),
    ("currentNode", .str (nodeName st.currentNode)),
    ("messages", .arr (st.messages.map encodeMsg)),
    ("answers", .obj (st.answers.map (fun p => (nodeName p.1, Json.str p.2)))),
    ("extractedAnswers", .obj (st.extractedAnswers.map (fun p => (nodeName p.1, encodeExtracted p.2)))),
    ("interestedInSelling", encodeOptBool st.interestedInSelling),
    ("hasOtherProperty", encodeOptBool st.hasOtherProperty),
    ("isTenantOccupied", encodeOptBool st.isTenantOccupied),
    ("isAnnualLease", encodeOptBool st.isAnnualLease),
    ("email", encodeOptStr st.email),
    ("isComplete", .bool st.isComplete),
    ("lastQuestion", .str st.lastQuestion),
    ("lastResponse", .str st.lastResponse),
    ("logPath", .str logPath)]

def decodeMessages (j : Json) : List Message :=
  match j with
  | .arr xs => xs.map decodeMsg
  | _ => []

def decodeAnswers (j : Json) : List (ConversationNode × String) :=
  match j with
  | .obj fs =>
    fs.filterMap (fun p =>
      match nodeOfString p.1, p.2 with
      | some n, .str s => some (n, s)
      | _, _ => none)
  | _ => []

def decodeExtractedAnswers (j : Json) : List (ConversationNode × ExtractedValue) :=
  match j with
  | .obj fs => fs.filterMap (fun p => (nodeOfString p.1).map (fun n => (n, decodeExtracted p.2)))
  | _ => []

def decodeGraphState (j : Json) : GraphState :=
  { username := getStrD j "username"
    currentNode :=
      match j.getField "currentNode" with
      | some (.str s) => (nodeOfString s).getD .initial_interest
      | _ => .initial_interest
    messages :=
      match j.getField "messages" with
      | some v => decodeMessages v
      | none => []
    answers :=
      match j.getField "answers" with
      | some v => decodeAnswers v
      | none => []
    extractedAnswers :=
      match j.getField "extractedAnswers" with
      | some v => decodeExtractedAnswers v
      | none => []
    interestedInSelling := getOptBoolD j "interestedInSelling"
    hasOtherProperty := getOptBoolD j "hasOtherProperty"
    isTenantOccupied := getOptBoolD j "isTenantOccupied"
    isAnnualLease := getOptBoolD j "isAnnualLease"
    email := getOptStrD j "email"
    isComplete := getBoolD j "isComplete"
    lastQuestion := getStrD j "lastQuestion"
    lastResponse := getStrD j "lastResponse" }

/-! ## The conversation state store — `LogsStorage` -/

/-- The character replacement of `sanitizeUsername`:
`replace(/[^a-zA-Z0-9._-]/g, "_")`. -/
def sanitizeReplaceChar (c : Char) : Char :=
  if c.isAlpha || c.isDigit || c = '.' || c = '_' || c = '-' then c else '_'

/-- `LogsStorage.sanitizeUsername` (lines 258-262): trim, map an empty
result to "anonymous", replace every character outside `[a-zA-Z0-9._-]`
with `_`, cap at 64 characters. -/
def sanitizeUsername (username : String) : String :=
  let v := trimStr username
  if v = "" then "anonymous"
  else String.mk ((v.data.map sanitizeReplaceChar).take 64)

/-- The graph-state directory (`path.join(baseDir, "graph-state")` with
the default base directory). -/
def graphStateDir : String := "data/logs/graph-state"

/-- `LogsStorage.getGraphStatePath` (lines 266-268). -/
def getGraphStatePath (username : String) : String :=
  graphStateDir ++ "/" ++ sanitizeUsername username ++ ".json"

/-- The content of a persisted state file: a JSON tree, or text that
`JSON.parse` rejects. -/
inductive StoredFile where
  | corrupt
  | json (j : Json)

/-- The persistence medium: association list from path to file content. -/
abbrev FS := List (String × StoredFile)

/-- `LogsStorage.saveGraphState` (lines 276-283): write the state's
fields plus a `logPath` under the sanitized-username path.  (`logPath`
comes from `getOrCreateGraphLogPath`, which involves the clock; it is
passed explicitly and ignored on load.) -/
def saveGraphState (logPath : String) (fs : FS) (state : GraphState) : FS :=
  setKey fs (getGraphStatePath state.username) (.json (encodeGraphState state logPath))

/-- `LogsStorage.loadGraphState` (lines 285-295): absent file or
unparsable content give `null`; otherwise the parsed tree is used as a
`GraphState` (unchecked cast). -/
def loadGraphState (fs : FS) (username : String) : Option GraphState :=
  match lookupKey fs (getGraphStatePath username) with
  | none => none
  | some .corrupt => none
  | some (.json j) => some (decodeGraphState j)

/-- `LogsStorage.clearGraphState` (lines 297-302). -/
def clearGraphState (fs : FS) (username : String) : FS :=
  fs.filter (fun p => !(p.1 = getGraphStatePath username))

/-! ## The conversation engine — `GraphService.chat` -/

/-- The fixed message returned once a conversation is complete. -/
def endedMessage : String := "The conversation has ended. Please start a new conversation."

/-- The closing message appended when a terminal node is reached. -/
def thankYouMessage : String :=
  "Thank you for your time. Our team will be in touch soon. Have a great day!"

/-- JavaScript `a ?? b`. -/
def jsCoalesce {α : Type} (newV old : Option α) : Option α :=
  match newV with
  | some v => some v
  | none => old

/-- The state at the start of a turn: inbound message appended to the
transcript, `lastResponse` set (lines 571-572). -/
def turnState (state : GraphState) (userMessage : String) : GraphState :=
  { state with
    messages := state.messages ++ [{ role := .human, content := userMessage }]
    lastResponse := userMessage }

/-- The processor invocation of a turn (lines 576-581). -/
def turnProcessor (state : GraphState) (userMessage : String) : ProcessorResult :=
  processCurrentNode state.currentNode (turnState state userMessage)

/-- The merged state after a valid extraction (lines 618-625): each
derived flag is `processorResult.flag ?? state.flag`. -/
def mergedState (state : GraphState) (userMessage : String) : GraphState :=
  let pr := turnProcessor state userMessage
  { turnState state userMessage with
    interestedInSelling := jsCoalesce pr.interestedInSelling state.interestedInSelling
    hasOtherProperty := jsCoalesce pr.hasOtherProperty state.hasOtherProperty
    isTenantOccupied := jsCoalesce pr.isTenantOccupied state.isTenantOccupied
    isAnnualLease := jsCoalesce pr.isAnnualLease state.isAnnualLease
    email := jsCoalesce pr.email state.email }

/-- The next node computed by a turn (line 629). -/
def turnNextNode (state : GraphState) (userMessage : String) : ConversationNode :=
  determineNextNode state.currentNode (mergedState state userMessage)

/-- The engine's world: the in-memory `activeStates` map (keyed by raw
username) and the persistence medium. -/
structure World where
  active : List (String × GraphState)
  fs : FS

/-- One turn on an existing, incomplete state (lines 566-699 of `chat`).
`paraC` / `paraQ` are the outcomes of `formatClarification` /
`formatQuestion` (LLM paraphrase with fall-back to the given text). -/
def chatTurn (paraC paraQ : String → String) (logPath : String) (w : World)
    (username userMessage : String) (state : GraphState) : World × String :=
  let ev := (turnProcessor state userMessage).extractedValue
  if ev.isUnclear then
    let clarText := if ev.clarificationOf = "" then QUESTIONS state.currentNode else ev.clarificationOf
    let clarificationMessage := paraC clarText
    let state2 :=
      { turnState state userMessage with
        messages := (turnState state userMessage).messages ++
          [{ role := .ai, content := clarificationMessage }] }
    ({ active := setKey w.active username state2, fs := saveGraphState logPath w.fs state2 },
      clarificationMessage)
  else
    let nextNode := turnNextNode state userMessage
    let state3 :=
      { mergedState state userMessage with
        answers := setKey state.answers state.currentNode userMessage
        extractedAnswers := setKey state.extractedAnswers state.currentNode ev
        currentNode := nextNode }
    if nextNode = ConversationNode.«end» ∨ nextNode = ConversationNode.closing then
      let state4 :=
        { state3 with
          isComplete := true
          messages := state3.messages ++ [{ role := .ai, content := thankYouMessage }]
          lastQuestion := thankYouMessage }
      ({ active := setKey w.active username state4, fs := saveGraphState logPath w.fs state4 },
        thankYouMessage)
    else
      if QUESTIONS nextNode ≠ "" then
        let aiMsg := paraQ (QUESTIONS nextNode)
        let state4 :=
          { state3 with
            messages := state3.messages ++ [{ role := .ai, content := aiMsg }]
            lastQuestion := QUESTIONS nextNode }
        ({ active := setKey w.active username state4, fs := saveGraphState logPath w.fs state4 },
          aiMsg)
      else
        let state4 :=
          { state3 with
            isComplete := true
            messages := state3.messages ++ [{ role := .ai, content := thankYouMessage }] }
        ({ active := setKey w.active username state4, fs := saveGraphState logPath w.fs state4 },
          thankYouMessage)

/-- The fresh state created on the first turn of an identity
(lines 531-549): root node, root question in the transcript, empty
answers, all flags unknown. -/
def initialStateFor (username : String) : GraphState :=
  { username := username
    currentNode := .initial_interest
    messages := [{ role := .ai, content := QUESTIONS .initial_interest }]
    answers := []
    extractedAnswers := []
    interestedInSelling := none
    hasOtherProperty := none
    isTenantOccupied := none
    isAnnualLease := none
    email := none
    isComplete := false
    lastQuestion := QUESTIONS .initial_interest
    lastResponse := "" }

/-- The state resolution at the top of `chat` (lines 521-528): in-memory
map first, then the store. -/
def resolveState (w : World) (username : String) : Option GraphState :=
  match lookupKey w.active username with
  | some s => some s
  | none => loadGraphState w.fs username

/-- `GraphService.chat` (lines 520-704): resolve the state (caching a
store hit in the in-memory map), start a fresh conversation when absent,
return the fixed terminal message when complete, otherwise run the turn. -/
def chat (paraC paraQ : String → String) (logPath : String) (w : World)
    (username userMessage : String) : World × String :=
  let fromMem := lookupKey w.active username
  let stateOpt :=
    match fromMem with
    | some s => some s
    | none => loadGraphState w.fs username
  let w0 : World :=
    match fromMem with
    | some _ => w
    | none =>
      match loadGraphState w.fs username with
      | some s => { w with active := setKey w.active username s }
      | none => w
  match stateOpt with
  | none =>
    let initialState := initialStateFor username
    ({ active := setKey w0.active username initialState,
       fs := saveGraphState logPath w0.fs initialState },
      QUESTIONS .initial_interest)
  | some state =>
    if state.isComplete then (w0, endedMessage)
    else chatTurn paraC paraQ logPath w0 username userMessage state

/-- A neutral concrete state for witnesses. -/
def blankState (u : String) : GraphState :=
  { username := u
    currentNode := .initial_interest
    messages := []
    answers := []
    extractedAnswers := []
    interestedInSelling := none
    hasOtherProperty := none
    isTenantOccupied := none
    isAnnualLease := none
    email := none
    isComplete := false
    lastQuestion := QUESTIONS .initial_interest
    lastResponse := "" }



/-- Written from the words of claim C8 ("replacing every non-alphanumeric
character") for comparison with the source's `sanitizeUsername`: keep only
letters and digits, everything else becomes `_`. -/
def sanitizeClaimChar (c : Char) : Char := if c.isAlpha || c.isDigit then c else '_'

/-- Sanitization exactly as claim C8 words it (spec-followed definition,
to be compared with the source's `sanitizeUsername`). -/
def sanitizeUsernameClaim (username : String) : String :=
  let v := trimStr username
  if v = "" then "anonymous"
  else String.mk ((v.data.map sanitizeClaimChar).take 64)

/-- The extraction the source actually produces for "around 250k to 300k":
the maximum is lost (see `price_range_extraction_bug`). -/
def buggyPrice : PriceExtractionResult :=
  { raw := "around 250k to 300k"
    min := some (JsNum.ofInt 250000)
    max := none
    currency := "USD" }

/-! # Claims

The theorems settling the frozen claims, with their supporting lemmas. -/

/-- C1: The transition function is a pure mapping from (current node,
derived flags) to the next node: `initial_interest` branches on
`interestedInSelling` (true → `price_range`, false → `other_property`,
unknown → re-ask `initial_interest`); `other_property` branches on
`hasOtherProperty` (true → `price_range`, otherwise → `closing`);
`occupancy` branches on `isTenantOccupied` (true → `lease_type`,
otherwise → `selling_reason`); `lease_type` branches on `isAnnualLease`
(true → `lease_expiry`, otherwise → `selling_reason`); `closing` always
goes to `end`; and the remaining edges are unconditional:
`price_range → bedrooms_bathrooms → kitchen_updates → property_condition
→ occupancy`, `lease_expiry → selling_reason`,
`selling_reason → collect_email`, `collect_email → closing`. -/
theorem transition_table (st : GraphState) :
    (st.interestedInSelling = some true →
      determineNextNode .initial_interest st = .price_range) ∧
    (st.interestedInSelling = some false →
      determineNextNode .initial_interest st = .other_property) ∧
    (st.interestedInSelling = none →
      determineNextNode .initial_interest st = .initial_interest) ∧
    (st.hasOtherProperty = some true →
      determineNextNode .other_property st = .price_range) ∧
    (st.hasOtherProperty ≠ some true →
      determineNextNode .other_property st = .closing) ∧
    (st.isTenantOccupied = some true →
      determineNextNode .occupancy st = .lease_type) ∧
    (st.isTenantOccupied ≠ some true →
      determineNextNode .occupancy st = .selling_reason) ∧
    (st.isAnnualLease = some true →
      determineNextNode .lease_type st = .lease_expiry) ∧
    (st.isAnnualLease ≠ some true →
      determineNextNode .lease_type st = .selling_reason) ∧
    determineNextNode .closing st = .«end» ∧
    determineNextNode .price_range st = .bedrooms_bathrooms ∧
    determineNextNode .bedrooms_bathrooms st = .kitchen_updates ∧
    determineNextNode .kitchen_updates st = .property_condition ∧
    determineNextNode .property_condition st = .occupancy ∧
    determineNextNode .lease_expiry st = .selling_reason ∧
    determineNextNode .selling_reason st = .collect_email ∧
    determineNextNode .collect_email st = .closing := by
  refine ⟨?_, ?_, ?_, ?_, ?_, ?_, ?_, ?_, ?_, rfl, rfl, rfl, rfl, rfl, rfl, rfl, rfl⟩ <;>
    intro h <;> simp [determineNextNode, h]

/-- Witness for `transition_table`: the branch hypotheses discharged at
concrete states. -/
theorem transition_table_witness :
    determineNextNode .initial_interest
        { blankState "u" with interestedInSelling := some true } = .price_range ∧
    determineNextNode .initial_interest
        { blankState "u" with interestedInSelling := some false } = .other_property ∧
    determineNextNode .initial_interest (blankState "u") = .initial_interest ∧
    determineNextNode .other_property
        { blankState "u" with hasOtherProperty := some true } = .price_range ∧
    determineNextNode .other_property (blankState "u") = .closing ∧
    determineNextNode .occupancy
        { blankState "u" with isTenantOccupied := some true } = .lease_type ∧
    determineNextNode .occupancy (blankState "u") = .selling_reason ∧
    determineNextNode .lease_type
        { blankState "u" with isAnnualLease := some true } = .lease_expiry ∧
    determineNextNode .lease_type (blankState "u") = .selling_reason :=
  ⟨(transition_table _).1 rfl,
   (transition_table _).2.1 rfl,
   (transition_table _).2.2.1 rfl,
   (transition_table _).2.2.2.1 rfl,
   (transition_table _).2.2.2.2.1 (by decide),
   (transition_table _).2.2.2.2.2.1 rfl,
   (transition_table _).2.2.2.2.2.2.1 (by decide),
   (transition_table _).2.2.2.2.2.2.2.1 rfl,
   (transition_table _).2.2.2.2.2.2.2.2.1 (by decide)⟩



/-- Setting a key then looking it up yields the stored value. -/
theorem lookupKey_setKey_self {κ α : Type} [DecidableEq κ] (l : List (κ × α)) (k : κ) (v : α) :
    lookupKey (setKey l k v) k = some v := by
  induction l with
  | nil => simp [setKey, lookupKey]
  | cons p rest ih =>
    by_cases h : p.1 = k
    · simp [setKey, lookupKey, h]
    · simp only [setKey]
      rw [if_neg h]
      simp only [lookupKey]
      rw [if_neg h]
      exact ih

/-- Node names decode back to their nodes. -/
theorem nodeOfString_nodeName (n : ConversationNode) : nodeOfString (nodeName n) = some n := by
  cases n <;> rfl

/-- Transcript entries survive the JSON codec. -/
theorem decodeMsg_encodeMsg (m : Message) : decodeMsg (encodeMsg m) = m := by
  cases m with
  | mk r c => cases r <;> rfl

/-- Transcripts survive the JSON codec. -/
theorem decodeMessages_encode (l : List Message) :
    decodeMessages (.arr (l.map encodeMsg)) = l := by
  simp [decodeMessages, List.map_map]
  calc (l.map (decodeMsg ∘ encodeMsg)) = l.map id := by
        apply List.map_congr_left
        intro m _
        exact decodeMsg_encodeMsg m
    _ = l := List.map_id l

/-- Extracted values survive the JSON codec. -/
theorem decodeExtracted_encodeExtracted (v : ExtractedValue) :
    decodeExtracted (encodeExtracted v) = v := by
  cases v with
  | unclear c => rfl
  | str s => rfl
  | num q => rfl
  | price p status =>
    cases p with
    | mk raw mn mx cur =>
      cases status <;> cases mn <;> cases mx <;> rfl
  | rooms r =>
    cases r with
    | mk bd bt raw => cases bd <;> cases bt <;> rfl

/-- Raw-answer records survive the JSON codec. -/
theorem decodeAnswers_encode (l : List (ConversationNode × String)) :
    decodeAnswers (.obj (l.map (fun p => (nodeName p.1, Json.str p.2)))) = l := by
  induction l with
  | nil => rfl
  | cons p rest ih =>
    simp only [List.map_cons, decodeAnswers, List.filterMap_cons, nodeOfString_nodeName]
    simp only [decodeAnswers] at ih
    rw [ih]

/-- Extracted-answer records survive the JSON codec. -/
theorem decodeExtractedAnswers_encode (l : List (ConversationNode × ExtractedValue)) :
    decodeExtractedAnswers (.obj (l.map (fun p => (nodeName p.1, encodeExtracted p.2)))) = l := by
  induction l with
  | nil => rfl
  | cons p rest ih =>
    simp only [List.map_cons, decodeExtractedAnswers, List.filterMap_cons, nodeOfString_nodeName,
      decodeExtracted_encodeExtracted]
    simp only [decodeExtractedAnswers] at ih
    rw [ih]
    rfl

/-- Reading the saved object back as a `GraphState` (the unchecked cast
of `loadGraphState`) restores every field; the added `logPath` is ignored. -/
theorem decode_encode (st : GraphState) (lp : String) :
    decodeGraphState (encodeGraphState st lp) = st := by
  cases st with
  | mk u cn msgs ans ext f1 f2 f3 f4 em ic lq lr =>
    have h1 : decodeGraphState (encodeGraphState ⟨u, cn, msgs, ans, ext, f1, f2, f3, f4, em, ic, lq, lr⟩ lp) =
        ⟨u, (nodeOfString (nodeName cn)).getD .initial_interest,
          decodeMessages (.arr (msgs.map encodeMsg)),
          decodeAnswers (.obj (ans.map (fun p => (nodeName p.1, Json.str p.2)))),
          decodeExtractedAnswers (.obj (ext.map (fun p => (nodeName p.1, encodeExtracted p.2)))),
          f1, f2, f3, f4, em, ic, lq, lr⟩ := by
      cases f1 <;> cases f2 <;> cases f3 <;> cases f4 <;> cases em <;> rfl
    rw [h1, nodeOfString_nodeName, decodeMessages_encode, decodeAnswers_encode,
      decodeExtractedAnswers_encode]
    rfl


/-- Loading under any identity that sanitizes like the saved state's
username returns exactly the saved state. -/
theorem load_save (fs : FS) (lp : String) (st : GraphState) (u : String)
    (h : sanitizeUsername u = sanitizeUsername st.username) :
    loadGraphState (saveGraphState lp fs st) u = some st := by
  unfold loadGraphState saveGraphState getGraphStatePath
  rw [h, lookupKey_setKey_self]
  exact congrArg some (decode_encode st lp)

/-- C7: Round-trip — for every `ConversationState`, saving it with
`saveGraphState` and then loading it with `loadGraphState` for the same
identity yields a state equal to the saved one in all observable fields:
`currentNode`, the derived flags (`interestedInSelling`,
`hasOtherProperty`, `isTenantOccupied`, `isAnnualLease`, `email`),
`answers`, `extractedAnswers`, `isComplete`, and the message transcript
(the returned state is equal to the saved one outright). -/
theorem save_load_roundtrip (fs : FS) (lp : String) (st : GraphState) :
    loadGraphState (saveGraphState lp fs st) st.username = some st :=
  load_save fs lp st st.username rfl

/-- On a resolved, incomplete state, `chat` runs the turn on that state
over the same persistence medium (with some in-memory map contents). -/
theorem chat_resolved (paraC paraQ : String → String) (lp : String) (w : World)
    (u m : String) (s : GraphState)
    (hres : resolveState w u = some s) (hC : s.isComplete = false) :
    ∃ a0 : List (String × GraphState),
      chat paraC paraQ lp w u m = chatTurn paraC paraQ lp ⟨a0, w.fs⟩ u m s := by
  unfold resolveState at hres
  cases hm : lookupKey w.active u with
  | some s0 =>
    rw [hm] at hres
    obtain rfl : s0 = s := by injection hres
    refine ⟨w.active, ?_⟩
    simp only [chat, hm, hC]
    rfl
  | none =>
    rw [hm] at hres
    change loadGraphState w.fs u = some s at hres
    refine ⟨setKey w.active u s, ?_⟩
    simp only [chat, hm]
    rw [hres]
    simp only [hC]
    rfl


/-- C3: For every turn in which the current node's validation reports the
utterance invalid/unclear, the persisted `currentNode` is unchanged across
the turn, no derived flag (`interestedInSelling`, `hasOtherProperty`,
`isTenantOccupied`, `isAnnualLease`, `email`) is updated, the recorded
answers are untouched, and the outbound message returned to the user is
the clarification prompt (as paraphrased by the clarification formatter),
so the user answers the same node again next turn.  The persisted and the
in-memory state agree. -/
theorem clarification_keeps_state (paraC paraQ : String → String) (lp : String) (w : World)
    (u m : String) (s : GraphState) (clar : String)
    (hres : resolveState w u = some s) (huser : s.username = u)
    (hC : s.isComplete = false)
    (hev : (turnProcessor s m).extractedValue = .unclear clar) :
    ∃ s' : GraphState,
      lookupKey (chat paraC paraQ lp w u m).1.active u = some s' ∧
      loadGraphState (chat paraC paraQ lp w u m).1.fs u = some s' ∧
      s'.currentNode = s.currentNode ∧
      s'.interestedInSelling = s.interestedInSelling ∧
      s'.hasOtherProperty = s.hasOtherProperty ∧
      s'.isTenantOccupied = s.isTenantOccupied ∧
      s'.isAnnualLease = s.isAnnualLease ∧
      s'.email = s.email ∧
      s'.answers = s.answers ∧
      s'.extractedAnswers = s.extractedAnswers ∧
      (chat paraC paraQ lp w u m).2 = paraC (if clar = "" then QUESTIONS s.currentNode else clar) := by
  obtain ⟨a0, heq⟩ := chat_resolved paraC paraQ lp w u m s hres hC
  rw [heq]
  simp only [chatTurn, hev, ExtractedValue.isUnclear, ExtractedValue.clarificationOf, if_true]
  refine ⟨_, lookupKey_setKey_self _ _ _, ?_, rfl, rfl, rfl, rfl, rfl, rfl, rfl, rfl, trivial⟩
  refine load_save _ _ _ _ ?_
  show sanitizeUsername u = sanitizeUsername s.username
  rw [huser]


/-- C2: Reaching a terminal node makes completion sticky.  Second
conjunct: whenever the transition function yields `end` or `closing` for
a turn (on a resolved, incomplete state with a valid extraction), the
engine sets `isComplete := true` on that turn's persisted (and in-memory)
state.  First conjunct: for every state with `isComplete = true`, a chat
call for that identity returns the fixed ended-conversation message, the
resolved state is unchanged (so `answers`, `extractedAnswers` and
`currentNode` are not mutated), and nothing is written to the store. -/
theorem terminal_completion_sticky (paraC paraQ : String → String) (lp : String) (w : World)
    (u m : String) (s : GraphState)
    (hres : resolveState w u = some s) (huser : s.username = u) :
    (s.isComplete = true →
      (chat paraC paraQ lp w u m).2 = endedMessage ∧
      resolveState (chat paraC paraQ lp w u m).1 u = some s ∧
      (chat paraC paraQ lp w u m).1.fs = w.fs) ∧
    (s.isComplete = false →
      (turnProcessor s m).extractedValue.isUnclear = false →
      (turnNextNode s m = ConversationNode.«end» ∨ turnNextNode s m = ConversationNode.closing) →
      ∃ s' : GraphState,
        lookupKey (chat paraC paraQ lp w u m).1.active u = some s' ∧
        loadGraphState (chat paraC paraQ lp w u m).1.fs u = some s' ∧
        s'.isComplete = true) := by
  have hres0 := hres
  unfold resolveState at hres0
  constructor
  · intro hC
    cases hm : lookupKey w.active u with
    | some s0 =>
      rw [hm] at hres0
      obtain rfl : s0 = s := by injection hres0
      simp only [chat, hm, hC, if_true]
      exact ⟨trivial, hres, trivial⟩
    | none =>
      rw [hm] at hres0
      change loadGraphState w.fs u = some s at hres0
      simp only [chat, hm]
      rw [hres0]
      simp only [hC, if_true]
      refine ⟨trivial, ?_, trivial⟩
      unfold resolveState
      rw [lookupKey_setKey_self]
  · intro hC hval hnext
    obtain ⟨a0, heq⟩ := chat_resolved paraC paraQ lp w u m s hres hC
    rw [heq]
    rcases hnext with h | h <;>
      simp only [chatTurn, hval, Bool.false_eq_true, if_false, h] <;>
      refine ⟨_, lookupKey_setKey_self _ _ _, ?_, rfl⟩ <;>
      refine load_save _ _ _ _ ?_ <;>
      · show sanitizeUsername u = sanitizeUsername s.username
        rw [huser]


/-- C4: For every identity with no stored state (neither in the in-memory
map nor persisted), the first `chat` call returns the `initial_interest`
question text verbatim and persists (in memory and in the store) a fresh
state with `currentNode = initial_interest`, `isComplete = false`, empty
answer maps and all derived flags unknown.  The result is the same for
every inbound message: no extraction is performed on the first turn. -/
theorem fresh_conversation (paraC paraQ : String → String) (lp : String) (w : World) (u m : String)
    (hmem : lookupKey w.active u = none)
    (hfs : loadGraphState w.fs u = none) :
    chat paraC paraQ lp w u m =
      ({ active := setKey w.active u (initialStateFor u),
         fs := saveGraphState lp w.fs (initialStateFor u) }, QUESTIONS .initial_interest) ∧
    lookupKey (chat paraC paraQ lp w u m).1.active u = some (initialStateFor u) ∧
    loadGraphState (chat paraC paraQ lp w u m).1.fs u = some (initialStateFor u) ∧
    (initialStateFor u).currentNode = .initial_interest ∧
    (initialStateFor u).isComplete = false ∧
    (initialStateFor u).answers = [] ∧
    (initialStateFor u).extractedAnswers = [] ∧
    (initialStateFor u).interestedInSelling = none ∧
    (initialStateFor u).hasOtherProperty = none ∧
    (initialStateFor u).isTenantOccupied = none ∧
    (initialStateFor u).isAnnualLease = none ∧
    (initialStateFor u).email = none := by
  have hchat : chat paraC paraQ lp w u m =
      ({ active := setKey w.active u (initialStateFor u),
         fs := saveGraphState lp w.fs (initialStateFor u) }, QUESTIONS .initial_interest) := by
    simp only [chat, hmem]
    rw [hfs]
  refine ⟨hchat, ?_, ?_, rfl, rfl, rfl, rfl, rfl, rfl, rfl, rfl, rfl⟩
  · rw [hchat]
    exact lookupKey_setKey_self _ _ _
  · rw [hchat]
    exact load_save _ _ _ _ rfl

/-- C6: Loading persisted conversation state for an identity whose state
file is missing, or whose file content is corrupt/unparsable JSON,
returns absent (`none`) rather than raising an error (the functions are
total), and a subsequent `chat` call for that identity transparently
starts a fresh conversation at the root node. -/
theorem corrupt_or_missing_state_absent :
    (∀ (fs : FS) (u : String), lookupKey fs (getGraphStatePath u) = none →
        loadGraphState fs u = none) ∧
    (∀ (fs : FS) (u : String), lookupKey fs (getGraphStatePath u) = some StoredFile.corrupt →
        loadGraphState fs u = none) ∧
    (∀ (paraC paraQ : String → String) (lp : String) (w : World) (u m : String),
        lookupKey w.active u = none → loadGraphState w.fs u = none →
        (chat paraC paraQ lp w u m).2 = QUESTIONS ConversationNode.initial_interest ∧
        (lookupKey (chat paraC paraQ lp w u m).1.active u).map GraphState.currentNode =
          some ConversationNode.initial_interest) := by
  refine ⟨?_, ?_, ?_⟩
  · intro fs u h
    unfold loadGraphState
    rw [h]
  · intro fs u h
    unfold loadGraphState
    rw [h]
  · intro paraC paraQ lp w u m hmem hfs
    have hchat : chat paraC paraQ lp w u m =
        ({ active := setKey w.active u (initialStateFor u),
           fs := saveGraphState lp w.fs (initialStateFor u) }, QUESTIONS .initial_interest) := by
      simp only [chat, hmem]
      rw [hfs]
    rw [hchat]
    exact ⟨rfl, by rw [lookupKey_setKey_self]; rfl⟩


/-- A match of `([1-9]|10)` at one position captures a value in 1..10. -/
theorem scaleHere_range (prev : Option Char) (l : List Char) (n : Nat)
    (h : scaleHere prev l = some n) : 1 ≤ n ∧ n ≤ 10 := by
  unfold scaleHere at h
  split at h
  · split at h
    · exact absurd h (by simp)
    · rename_i c rest
      split at h
      · rename_i hcond
        obtain rfl : c.toNat - 48 = n := by injection h
        simp only [Bool.and_eq_true, decide_eq_true_eq] at hcond
        obtain ⟨⟨hlo, hhi⟩, -⟩ := hcond
        rw [Char.le_def, UInt32.le_def] at hlo hhi
        have h3 : 49 ≤ c.val.toNat := hlo
        have h4 : c.val.toNat ≤ 57 := hhi
        unfold Char.toNat
        omega
      · split at h
        · split at h
          · split at h
            · obtain rfl : 10 = n := by injection h
              omega
            · exact absurd h (by simp)
          · exact absurd h (by simp)
        · exact absurd h (by simp)
  · exact absurd h (by simp)

/-- Whatever the digit branch of the scale validator captures is in 1..10. -/
theorem findScale_range (l : List Char) : ∀ (prev : Option Char) (n : Nat),
    findScale prev l = some n → 1 ≤ n ∧ n ≤ 10 := by
  induction l with
  | nil =>
    intro prev n h
    unfold findScale at h
    exact scaleHere_range prev [] n h
  | cons c rest ih =>
    intro prev n h
    unfold findScale at h
    cases hs : scaleHere prev (c :: rest) with
    | some k =>
      rw [hs] at h
      obtain rfl : k = n := by injection h
      exact scaleHere_range prev (c :: rest) _ hs
    | none =>
      rw [hs] at h
      exact ih (some c) n h

/-- C10: For every input string, whenever the property-condition scale
validator returns a valid result, the extracted value is an integer
between 1 and 10 inclusive: the digit branch only matches a standalone
1-9 or 10 delimited by word boundaries (`findScale_range`), and every
entry of the descriptive-word table lies in 1..10. -/
theorem scale_value_in_range (s : String) (q : JsNum)
    (h : validateScale s = .ok (.num q)) :
    ∃ n : Nat, q = JsNum.ofInt n ∧ 1 ≤ n ∧ n ≤ 10 := by
  unfold validateScale at h
  cases hf : findScale none s.data with
  | some n =>
    rw [hf] at h
    have h1 : ExtractedValue.num (JsNum.ofInt n) = ExtractedValue.num q := by injection h
    have h2 : JsNum.ofInt n = q := by injection h1
    exact ⟨n, h2.symm, findScale_range s.data none n hf⟩
  | none =>
    rw [hf] at h
    cases hw : conditionWords.find? (fun p => containsSub p.1.data (lowerStr s).data) with
    | some p =>
      rw [hw] at h
      have h1 : ExtractedValue.num (JsNum.ofInt p.2) = ExtractedValue.num q := by injection h
      have h2 : JsNum.ofInt p.2 = q := by injection h1
      have hmem : p ∈ conditionWords := List.mem_of_find?_eq_some hw
      have hrange : ∀ r ∈ conditionWords, 1 ≤ r.2 ∧ r.2 ≤ 10 := by decide
      exact ⟨p.2, h2.symm, hrange p hmem⟩
    | none =>
      rw [hw] at h
      exact absurd h (by simp)

/-- C9: The yes/no validator gives precedence to positive matches: for
every utterance that contains (under case-insensitive word-boundary
matching) both a positive keyword and a negative keyword, `validateYesNo`
returns a valid result with value "yes", because the positive set is
tested before the negative set (the negative hypothesis is not even
needed). -/
theorem validateYesNo_yes_precedence (s : String)
    (hy : testWords yesWords (trimStr (lowerStr s)) = true)
    (_hn : testWords noWords (trimStr (lowerStr s)) = true) :
    validateYesNo s = .ok (.str "yes") := by
  simp [validateYesNo, hy]

/-- C5: Evaluation of the code at the failing input of the claim.  A turn
at `price_range` with "around 250k to 300k" is validated as a successful
currency-range extraction and the conversation advances to
`bedrooms_bathrooms`, but the extracted range is
`min = 250000, max = null` — not `max = 300000` as the claim (and the
spec's scenario) state: the matched text " 250k to 300k" is split at the
separator index, so the second part "to 300k" keeps the separator and
`parseFloat("to300")` is `NaN`.  The same happens on the source's own
documented example "200000 to 300000" (which even yields `min = 0`,
because `\d{1,3}` backtracking matches "000 to 300"). -/
theorem price_range_extraction_bug :
    validatePriceRange "around 250k to 300k" = .ok (.price buggyPrice none) ∧
    parsePriceToNumber "to 300k" = none ∧
    extractPriceRange "200000 to 300000" =
      { raw := "200000 to 300000", min := some (JsNum.ofInt 0), max := none, currency := "USD" } ∧
    (lookupKey (chat id id "lp"
        ⟨[("u", { blankState "u" with currentNode := ConversationNode.price_range })], []⟩
        "u" "around 250k to 300k").1.active "u").map GraphState.currentNode =
      some ConversationNode.bedrooms_bathrooms ∧
    (lookupKey (chat id id "lp"
        ⟨[("u", { blankState "u" with currentNode := ConversationNode.price_range })], []⟩
        "u" "around 250k to 300k").1.active "u").map
        (fun st => lookupKey st.extractedAnswers ConversationNode.price_range) =
      some (some (.price buggyPrice none)) := by
  refine ⟨by decide, by decide, by decide, by decide, by decide⟩

/-- C8 counterexample: the claim says the storage key replaces every
non-alphanumeric character with `_`; the source keeps `.`, `_` and `-`
(charset `[^a-zA-Z0-9._-]`).  At the identity "a.b" the code keeps the
dot while the claim's wording demands "a_b", giving a different storage
path. -/
theorem sanitize_nonalnum_counterexample :
    sanitizeUsername "a.b" = "a.b" ∧
    sanitizeUsernameClaim "a.b" = "a_b" ∧
    getGraphStatePath "a.b" ≠ graphStateDir ++ "/" ++ sanitizeUsernameClaim "a.b" ++ ".json" := by
  refine ⟨by decide, by decide, by decide⟩

/-- C8 (amended): For every raw user identity, the key under which
conversation state is stored and looked up is the sanitized identity
obtained by trimming the input, mapping an empty result to "anonymous",
replacing every character other than ASCII letters, digits, `.`, `_`,
`-` with `_`, and capping the length at 64; this sanitized identity is
the sole state-store key (identities with equal sanitizations resolve to
the same stored state). -/
theorem sanitize_key_amended (u v : String) :
    getGraphStatePath u = graphStateDir ++ "/" ++ sanitizeUsername u ++ ".json" ∧
    (trimStr u = "" → sanitizeUsername u = "anonymous") ∧
    (sanitizeUsername u).data.length ≤ 64 ∧
    (∀ c ∈ (sanitizeUsername u).data,
      c.isAlpha = true ∨ c.isDigit = true ∨ c = '.' ∨ c = '_' ∨ c = '-') ∧
    (sanitizeUsername u = sanitizeUsername v →
      ∀ fs : FS, loadGraphState fs u = loadGraphState fs v) := by
  refine ⟨rfl, ?_, ?_, ?_, ?_⟩
  · intro h
    simp [sanitizeUsername, h]
  · by_cases h : trimStr u = ""
    · simp [sanitizeUsername, h]
    · simp only [sanitizeUsername, if_neg h]
      show ((((trimStr u).data.map sanitizeReplaceChar)).take 64).length ≤ 64
      rw [List.length_take]
      exact Nat.min_le_left _ _
  · by_cases h : trimStr u = ""
    · simp only [sanitizeUsername, if_pos h]
      decide
    · simp only [sanitizeUsername, if_neg h]
      intro c hc
      have hc' : c ∈ ((trimStr u).data.map sanitizeReplaceChar) := List.mem_of_mem_take hc
      obtain ⟨d, -, rfl⟩ := List.mem_map.mp hc'
      unfold sanitizeReplaceChar
      by_cases hd : (d.isAlpha || d.isDigit || d = '.' || d = '_' || d = '-') = true
      · rw [if_pos hd]
        simp only [Bool.or_eq_true, decide_eq_true_eq] at hd
        rcases hd with ((((h1 | h2) | h3) | h4) | h5)
        · exact Or.inl h1
        · exact Or.inr (Or.inl h2)
        · exact Or.inr (Or.inr (Or.inl h3))
        · exact Or.inr (Or.inr (Or.inr (Or.inl h4)))
        · exact Or.inr (Or.inr (Or.inr (Or.inr h5)))
      · rw [if_neg hd]
        exact Or.inr (Or.inr (Or.inr (Or.inl rfl)))
  · intro h fs
    unfold loadGraphState getGraphStatePath
    rw [h]

/-- Witness for `sanitize_key_amended` at concrete identities. -/
theorem sanitize_key_amended_witness :
    sanitizeUsername "   " = "anonymous" ∧
    loadGraphState ([] : FS) "John Smith" = loadGraphState ([] : FS) "John@Smith" :=
  ⟨(sanitize_key_amended "   " "x").2.1 (by decide),
   ((sanitize_key_amended "John Smith" "John@Smith").2.2.2.2 (by decide)) []⟩

/-- Witness for `terminal_completion_sticky` at concrete states. -/
theorem terminal_completion_sticky_witness :
    (chat id id "lp" ⟨[("u", { blankState "u" with isComplete := true })], []⟩ "u" "hi").2 =
      endedMessage ∧
    (chat id id "lp" ⟨[("u", { blankState "u" with isComplete := true })], []⟩ "u" "hi").1.fs =
      ([] : FS) ∧
    (∃ s' : GraphState,
      lookupKey (chat id id "lp"
          ⟨[("u", { blankState "u" with currentNode := ConversationNode.closing })], []⟩
          "u" "sure").1.active "u" = some s' ∧
      loadGraphState (chat id id "lp"
          ⟨[("u", { blankState "u" with currentNode := ConversationNode.closing })], []⟩
          "u" "sure").1.fs "u" = some s' ∧
      s'.isComplete = true) := by
  have h1 := (terminal_completion_sticky id id "lp"
      ⟨[("u", { blankState "u" with isComplete := true })], []⟩ "u" "hi"
      { blankState "u" with isComplete := true } rfl rfl).1 rfl
  have h2 := (terminal_completion_sticky id id "lp"
      ⟨[("u", { blankState "u" with currentNode := ConversationNode.closing })], []⟩ "u" "sure"
      { blankState "u" with currentNode := ConversationNode.closing } rfl rfl).2 rfl (by decide)
      (Or.inl (by decide))
  exact ⟨h1.1, h1.2.2, h2⟩

/-- Witness for `clarification_keeps_state` at a concrete turn. -/
theorem clarification_keeps_state_witness :
    ∃ s' : GraphState,
      lookupKey (chat id id "lp" ⟨[("u", blankState "u")], []⟩ "u" "qwert").1.active "u" =
        some s' ∧
      s'.currentNode = ConversationNode.initial_interest ∧
      (chat id id "lp" ⟨[("u", blankState "u")], []⟩ "u" "qwert").2 =
        "I didn't quite catch that. Could you please answer with yes or no?" := by
  obtain ⟨s', ha, -, hcn, -, -, -, -, -, -, -, hmsg⟩ :=
    clarification_keeps_state id id "lp" ⟨[("u", blankState "u")], []⟩ "u" "qwert"
      (blankState "u") "I didn't quite catch that. Could you please answer with yes or no?"
      rfl rfl rfl (by decide)
  exact ⟨s', ha, hcn, by rw [hmsg]; rfl⟩

/-- Witness for `fresh_conversation` at a concrete empty world. -/
theorem fresh_conversation_witness :
    chat id id "lp" ⟨[], []⟩ "alice" "hello" =
      ({ active := setKey [] "alice" (initialStateFor "alice"),
         fs := saveGraphState "lp" [] (initialStateFor "alice") },
        QUESTIONS ConversationNode.initial_interest) :=
  (fresh_conversation id id "lp" ⟨[], []⟩ "alice" "hello" rfl rfl).1

/-- Witness for `corrupt_or_missing_state_absent` at concrete stores. -/
theorem corrupt_or_missing_state_absent_witness :
    loadGraphState ([] : FS) "ghost" = none ∧
    loadGraphState [(getGraphStatePath "bob", StoredFile.corrupt)] "bob" = none ∧
    (chat id id "lp" ⟨[], [(getGraphStatePath "bob", StoredFile.corrupt)]⟩ "bob" "hi").2 =
      QUESTIONS ConversationNode.initial_interest := by
  have hcor : lookupKey [(getGraphStatePath "bob", StoredFile.corrupt)] (getGraphStatePath "bob") =
      some StoredFile.corrupt := by
    unfold lookupKey
    rw [if_pos rfl]
  have h2 := corrupt_or_missing_state_absent.2.1 _ "bob" hcor
  exact ⟨corrupt_or_missing_state_absent.1 [] "ghost" rfl, h2,
    (corrupt_or_missing_state_absent.2.2 id id "lp"
      ⟨[], [(getGraphStatePath "bob", StoredFile.corrupt)]⟩ "bob" "hi" rfl h2).1⟩

/-- Witness for `validateYesNo_yes_precedence` at a concrete utterance. -/
theorem validateYesNo_yes_precedence_witness :
    testWords noWords (trimStr (lowerStr "yes and no")) = true ∧
    validateYesNo "yes and no" = .ok (.str "yes") :=
  ⟨by decide, validateYesNo_yes_precedence "yes and no" (by decide) (by decide)⟩

/-- Witness for `scale_value_in_range` at a concrete rating. -/
theorem scale_value_in_range_witness :
    validateScale "8" = .ok (.num (JsNum.ofInt 8)) ∧
    (∃ n : Nat, JsNum.ofInt 8 = JsNum.ofInt n ∧ 1 ≤ n ∧ n ≤ 10) :=
  ⟨by decide, scale_value_in_range "8" (JsNum.ofInt 8) (by decide)⟩


end Caller
